import Mathlib

/-!
# Verification of the sustainability-analytics backend (`src/main.py`)

A shallow embedding of the warehouse-backed analytics service into Lean 4.

Modelling conventions:
* Python floats are modelled as exact rationals (`ℚ`); the constants of the
  source (`0.82`, `2.68`, `0.18`, `0.0525`) are the rationals `41/50`,
  `67/25`, `9/50`, `21/400`.
* Python `round(x, n)` rounds half to even; `pyRound` implements that
  exactly on `ℚ`.
* Warehouse tables are lists of records; an SQL query over a table becomes
  a pure function over the list, with `GROUP BY` as group-by-first-occurrence,
  `SUM` as `List.sum` over a filter, joins as lookups, and `ORDER BY` as an
  insertion sort on the formatted key.
* Python exceptions (a raising handler aborts the HTTP request) are
  modelled with `Except String`.
* Nullable columns are `Option`-valued; Python's `x or 0` idiom and SQL
  `IFNULL(x, 0)` become `Option.getD 0` (both send `none` and `0` to `0`).
-/

/-- Round to the nearest integer, ties to even: the semantics of Python's
built-in `round` on exact values. -/
def roundHalfEven (x : ℚ) : ℤ :=
  if Int.fract x < 1/2 then ⌊x⌋
  else if 1/2 < Int.fract x then ⌊x⌋ + 1
  else if ⌊x⌋ % 2 = 0 then ⌊x⌋ else ⌊x⌋ + 1

/-- Python's `round(x, n)`: round to `n` decimal places, ties to even. -/
def pyRound (n : ℕ) (x : ℚ) : ℚ := (roundHalfEven (x * 10 ^ n) : ℚ) / 10 ^ n

/-! ## Bill entry (`POST /upload-bill`, `upload_bill` in `src/main.py`) -/

/-- The fixed emission-factor table of `upload_bill`
(`FACTORS = {"electricity": 0.82, "fuel": 2.68, "courier": 0.18}`), with
`FACTORS.get(bill_type, 0.0)` semantics: unknown keys map to `0`. -/
def FACTORS (bill_type : String) : ℚ :=
  if bill_type = "electricity" then 41/50
  else if bill_type = "fuel" then 67/25
  else if bill_type = "courier" then 9/50
  else 0

/-- A row of the `sustainability_ds.utility_bills` table, as inserted by
`upload_bill` (the `upload_time` timestamp is not modelled). -/
structure UtilityBill where
  bill_id : String
  bill_type : String
  amount : ℚ
  units : ℚ
  region : String
  month : String
  deriving Repr, DecidableEq

/-- The arguments of the `upload_bill` handler. -/
structure BillArgs where
  bill_type : String
  amount : ℚ
  units : ℚ
  region : String
  month : String
  deriving Repr, DecidableEq

/-- The JSON response of `upload_bill`: either the error payload
`{"error": ...}` or the success payload
`{"status": "success", "bill_id": ..., "estimated_co2": ...}`. -/
inductive BillResponse where
  | err (msg : String)
  | ok (status : String) (bill_id : String) (estimated_co2 : ℚ)
  deriving Repr, DecidableEq

/-- The month-format check of `upload_bill`
(`if not month or len(month) != 7 or month[4] != "-"`), as the acceptance
condition (negation of the rejection condition). Python strings index by
code point, so the string is viewed as its list of characters. -/
def monthAccepted (month : String) : Bool :=
  !(month.toList.isEmpty) && month.toList.length == 7
    && month.toList.getD 4 ' ' == '-'

/-- The `upload_bill` handler: validates the month, computes
`estimated_co2 = units * FACTORS.get(bill_type, 0.0)`, inserts one row into
`utility_bills`, and returns the response. The generated UUID is passed in
as `bill_id`; the handler returns the new table state and the response. -/
def upload_bill (bills : List UtilityBill) (bill_id : String)
    (a : BillArgs) : List UtilityBill × BillResponse :=
  if !(monthAccepted a.month) then
    (bills, .err "Invalid month format. Use YYYY-MM")
  else
    let factor := FACTORS a.bill_type
    let estimated_co2 := a.units * factor
    (bills ++ [{ bill_id := bill_id, bill_type := a.bill_type,
                 amount := a.amount, units := a.units,
                 region := a.region, month := a.month }],
     .ok "success" bill_id estimated_co2)

/-! ## Monthly trends (`GET /trends`, `get_trends` in `src/main.py`)

The SQL query groups `operations` by `FORMAT_DATE('%Y-%m', record_date)`,
producing one row per month with the nullable sums
`SUM(energy_kwh*0.82 + transport_km*0.0525) AS total_co2` and
`SUM(units_sold) AS total_units`, ordered by month. The Python loop then
walks the rows in order; `get_trends` here takes that ordered query result
as input and models the loop. A Python `ZeroDivisionError` (raised when
`prev_cpu` is `0`) aborts the whole request, so the handler is
`Except`-valued. -/

/-- One row of the grouped trends query result. Both sums are nullable
(`SUM` of an all-`NULL` group); the loop applies `or 0` to each. -/
structure TrendQueryRow where
  month : String
  total_co2 : Option ℚ
  total_units : Option ℚ
  deriving Repr, DecidableEq

/-- One element of the `data` array returned by `get_trends`. -/
structure TrendOut where
  month : String
  co2_per_unit : ℚ
  efficiency_change : Option ℚ
  deriving Repr, DecidableEq

/-- The per-row ratio of the trends loop:
`cpu = total / units if units > 0 else 0`, with `x or 0` applied to the
nullable sums first. -/
def cpuOf (r : TrendQueryRow) : ℚ :=
  if 0 < r.total_units.getD 0 then r.total_co2.getD 0 / r.total_units.getD 0
  else 0

/-- The body of the `get_trends` loop, carrying `prev_cpu` (`none` on the
first iteration). When `prev_cpu` is `0`, the expression
`((cpu - prev_cpu) / prev_cpu) * 100` raises `ZeroDivisionError`, which
aborts the request before any data is returned. -/
def trendsLoop : Option ℚ → List TrendQueryRow → Except String (List TrendOut)
  | _, [] => .ok []
  | none, r :: rs =>
    match trendsLoop (some (cpuOf r)) rs with
    | .error e => .error e
    | .ok rest =>
      .ok ({ month := r.month, co2_per_unit := pyRound 4 (cpuOf r),
             efficiency_change := none } :: rest)
  | some p, r :: rs =>
    if p = 0 then .error "float division by zero"
    else
      match trendsLoop (some (cpuOf r)) rs with
      | .error e => .error e
      | .ok rest =>
        .ok ({ month := r.month, co2_per_unit := pyRound 4 (cpuOf r),
               efficiency_change :=
                 some (pyRound 2 ((cpuOf r - p) / p * 100)) } :: rest)

/-- The `get_trends` handler on the ordered grouped query result. -/
def get_trends (rows : List TrendQueryRow) : Except String (List TrendOut) :=
  trendsLoop none rows

/-! ## Emission factor resolution and per-product metrics
(`GET /metrics`, `get_metrics` and `get_emission_factor` in `src/main.py`) -/

/-- A row of the `sustainability_ds.emission_factors` reference table. -/
structure EmissionFactorRow where
  region : String
  activity_type : String
  year : ℤ
  factor : ℚ
  reference : String
  deriving Repr, DecidableEq

/-- `ORDER BY year DESC LIMIT 1` over a filtered row list: a row of maximal
`year` (the first such row when years tie, which SQL leaves unspecified). -/
def maxYearRow : List EmissionFactorRow → Option EmissionFactorRow
  | [] => none
  | r :: rs =>
    match maxYearRow rs with
    | none => some r
    | some b => if r.year < b.year then some b else some r

/-- `get_emission_factor(region, activity)`: the factor and reference of the
most recent matching row, or `(None, None)` when no row matches. -/
def get_emission_factor (tbl : List EmissionFactorRow)
    (region activity : String) : Option ℚ × Option String :=
  match maxYearRow (tbl.filter
      (fun e => e.region == region && e.activity_type == activity)) with
  | none => (none, none)
  | some e => (some e.factor, some e.reference)

/-- Python truthiness on an optional float: `not x` is true exactly when
`x` is `None` or `0.0`. This is the test `if not energy_factor:` /
`if not transport_factor:` in `get_metrics`. -/
def pyFalsyQ : Option ℚ → Bool
  | none => true
  | some x => decide (x = 0)

/-- The electricity factor actually used by `get_metrics`: the resolved
factor, replaced by the default `0.82` whenever the resolved value is falsy
(`None` or `0.0`). -/
def energyFactorUsed (factors : List EmissionFactorRow) (region : String) : ℚ :=
  if pyFalsyQ (get_emission_factor factors region "electricity").1 then 41/50
  else (get_emission_factor factors region "electricity").1.getD 0

/-- The electricity reference actually used by `get_metrics`. -/
def energyRefUsed (factors : List EmissionFactorRow) (region : String) :
    Option String :=
  if pyFalsyQ (get_emission_factor factors region "electricity").1 then
    some "Default"
  else (get_emission_factor factors region "electricity").2

/-- The freight factor actually used by `get_metrics`: the resolved
`("Global", "freight_truck")` factor, replaced by the default `0.0525`
whenever the resolved value is falsy. -/
def transportFactorUsed (factors : List EmissionFactorRow) : ℚ :=
  if pyFalsyQ (get_emission_factor factors "Global" "freight_truck").1 then
    21/400
  else (get_emission_factor factors "Global" "freight_truck").1.getD 0

/-- The freight reference actually used by `get_metrics`. -/
def transportRefUsed (factors : List EmissionFactorRow) : Option String :=
  if pyFalsyQ (get_emission_factor factors "Global" "freight_truck").1 then
    some "Default"
  else (get_emission_factor factors "Global" "freight_truck").2

/-- A row of the `sustainability_ds.operations` table. `record_date` is an
ISO `YYYY-MM-DD` date string (date comparison and `FORMAT_DATE` become
character-wise operations on it). -/
structure OperationRow where
  product_id : String
  units_sold : ℤ
  energy_kwh : ℚ
  transport_km : ℚ
  record_date : String
  deriving Repr, DecidableEq

/-- A row of the `sustainability_ds.product_catalogue` reference table. -/
structure CatalogueRow where
  product_id : String
  product_name : String
  category : String
  deriving Repr, DecidableEq

/-- One element of the `data` array returned by `get_metrics`. -/
structure MetricsRow where
  product_id : String
  product_name : String
  category : String
  total_units_sold : ℤ
  energy_co2_kg : ℚ
  transport_co2_kg : ℚ
  total_co2_kg : ℚ
  energy_ref : Option String
  transport_ref : Option String
  deriving Repr, DecidableEq

/-- `IFNULL(p.product_name, o.product_id)` through the left join against the
catalogue: the catalogue name when a row matches, else the product id. -/
def catName (cat : List CatalogueRow) (pid : String) : String :=
  match cat.find? (fun c => c.product_id == pid) with
  | some c => c.product_name
  | none => pid

/-- `IFNULL(p.category, 'Unknown')` through the left join. -/
def catCategory (cat : List CatalogueRow) (pid : String) : String :=
  match cat.find? (fun c => c.product_id == pid) with
  | some c => c.category
  | none => "Unknown"

/-- The optional `WHERE record_date >= DATE(since)` filter of `get_metrics`
(ISO date strings compare character-wise like dates). -/
def sinceFilter (since : Option String) (ops : List OperationRow) :
    List OperationRow :=
  match since with
  | none => ops
  | some s => ops.filter (fun o => decide (s.toList ≤ o.record_date.toList))

/-- `SUM(o.units_sold)` for one product group. -/
def sumUnits (rows : List OperationRow) (pid : String) : ℤ :=
  ((rows.filter (fun o => o.product_id == pid)).map (·.units_sold)).sum

/-- `SUM(o.energy_kwh)` for one product group. -/
def sumEnergy (rows : List OperationRow) (pid : String) : ℚ :=
  ((rows.filter (fun o => o.product_id == pid)).map (·.energy_kwh)).sum

/-- `SUM(o.transport_km)` for one product group. -/
def sumKm (rows : List OperationRow) (pid : String) : ℚ :=
  ((rows.filter (fun o => o.product_id == pid)).map (·.transport_km)).sum

/-- The `ORDER BY product_name` comparison for metric rows. -/
def nameLe (a b : MetricsRow) : Prop :=
  a.product_name.toList ≤ b.product_name.toList

instance : DecidableRel nameLe := fun a b =>
  inferInstanceAs (Decidable (a.product_name.toList ≤ b.product_name.toList))

/-- The `get_metrics` handler: resolves the two emission factors with their
falsy-triggered defaults, groups the (optionally date-filtered) operations
by product with the catalogue left join, multiplies the summed energy and
transport by the factors, and orders by product name. `region` is the
`REGION` environment variable (default `"India"`). -/
def get_metrics (factors : List EmissionFactorRow) (cat : List CatalogueRow)
    (ops : List OperationRow) (region : String) (since : Option String) :
    List MetricsRow :=
  let rows := sinceFilter since ops
  let pids := (rows.map (·.product_id)).dedup
  let grouped := pids.map (fun pid =>
    ({ product_id := pid
       product_name := catName cat pid
       category := catCategory cat pid
       total_units_sold := sumUnits rows pid
       energy_co2_kg := sumEnergy rows pid * energyFactorUsed factors region
       transport_co2_kg := sumKm rows pid * transportFactorUsed factors
       total_co2_kg := sumEnergy rows pid * energyFactorUsed factors region
         + sumKm rows pid * transportFactorUsed factors
       energy_ref := energyRefUsed factors region
       transport_ref := transportRefUsed factors } : MetricsRow))
  List.insertionSort nameLe grouped

/-! ## Total footprint (`GET /total-footprint`, `total_footprint` in
`src/main.py`)

The query builds two CTEs — monthly product CO2 from `operations` and
monthly utility CO2 from `bill_emissions` — `FULL OUTER JOIN`s them on the
month key, `IFNULL`s the missing sides to `0`, adds them, and orders by
month. Each CTE has one row per distinct month, so the join is modelled by
a lookup over the union of the month keys. -/

/-- `FORMAT_DATE('%Y-%m', d)` on an ISO `YYYY-MM-DD` date string: its first
seven characters. -/
def formatMonth (d : String) : String := (d.toList.take 7).asString

/-- A row of the `sustainability_ds.bill_emissions` table (`month` is a
DATE, kept as an ISO `YYYY-MM-DD` string). -/
structure BillEmissionRow where
  month : String
  region : String
  bill_type : String
  estimated_co2 : ℚ
  deriving Repr, DecidableEq

/-- The per-operation-row CO2 term of the product CTE:
`energy_kwh * 0.82 + transport_km * 0.0525`. -/
def opCo2 (o : OperationRow) : ℚ := o.energy_kwh * (41/50) + o.transport_km * (21/400)

/-- The distinct month keys of the product CTE (`GROUP BY month`). -/
def opsMonths (ops : List OperationRow) : List String :=
  (ops.map (fun o => formatMonth o.record_date)).dedup

/-- The product CTE's `SUM(energy_kwh * 0.82 + transport_km * 0.0525)` for
one month group. -/
def opsMonthCo2 (ops : List OperationRow) (m : String) : ℚ :=
  ((ops.filter (fun o => formatMonth o.record_date == m)).map opCo2).sum

/-- The product CTE: one `(month, co2)` row per distinct month. -/
def productCTE (ops : List OperationRow) : List (String × ℚ) :=
  (opsMonths ops).map (fun m => (m, opsMonthCo2 ops m))

/-- The distinct month keys of the utility CTE. -/
def billMonths (bills : List BillEmissionRow) : List String :=
  (bills.map (fun b => formatMonth b.month)).dedup

/-- The utility CTE's `SUM(estimated_co2)` for one month group. -/
def billMonthCo2 (bills : List BillEmissionRow) (m : String) : ℚ :=
  ((bills.filter (fun b => formatMonth b.month == m)).map
    (·.estimated_co2)).sum

/-- The utility CTE: one `(month, co2)` row per distinct month. -/
def utilityCTE (bills : List BillEmissionRow) : List (String × ℚ) :=
  (billMonths bills).map (fun m => (m, billMonthCo2 bills m))

/-- One element of the `data` array returned by `total_footprint`. -/
structure FootprintRow where
  month : String
  product_co2 : ℚ
  utility_co2 : ℚ
  total_co2 : ℚ
  deriving Repr, DecidableEq

/-- The `ORDER BY month` comparison on `YYYY-MM` keys (SQL string order =
character-wise order = chronological order for fixed-width keys). -/
def monthLe (a b : String) : Prop := a.toList ≤ b.toList

instance : DecidableRel monthLe := fun a b =>
  inferInstanceAs (Decidable (a.toList ≤ b.toList))

instance : IsTotal String monthLe := ⟨fun a b => le_total a.toList b.toList⟩

instance : IsTrans String monthLe :=
  ⟨fun _ _ _ hab hbc => le_trans hab hbc⟩

/-- The `total_footprint` handler: full-outer-joins the two monthly CTEs on
the month key, `IFNULL`ing a missing side to `0`, reports the sum, and
orders by month. -/
def total_footprint (ops : List OperationRow) (bills : List BillEmissionRow) :
    List FootprintRow :=
  let p := productCTE ops
  let u := utilityCTE bills
  let months := List.insertionSort monthLe ((p.map Prod.fst) ++ (u.map Prod.fst)).dedup
  months.map (fun m =>
    { month := m
      product_co2 := (p.lookup m).getD 0
      utility_co2 := (u.lookup m).getD 0
      total_co2 := (p.lookup m).getD 0 + (u.lookup m).getD 0 })

/-! ## Upload log soft delete (`DELETE /uploads/{upload_id}`,
`delete_upload` in `src/main.py`) -/

/-- A row of the `sustainability_ds.upload_log` table. -/
structure UploadLogRow where
  upload_id : String
  upload_time : String
  file_name : String
  rows_loaded : ℤ
  status : String
  deriving Repr, DecidableEq

/-- The JSON response of `delete_upload`. -/
structure DeleteResponse where
  status : String
  upload_id : String
  deriving Repr, DecidableEq

/-- The effect of `UPDATE ... SET status = 'DELETED' WHERE upload_id = id`
on one row. -/
def markDeleted (upload_id : String) (r : UploadLogRow) : UploadLogRow :=
  if r.upload_id == upload_id then { r with status := "DELETED" } else r

/-- The `delete_upload` handler: updates every matching row's status and
unconditionally returns `{"status": "deleted", "upload_id": id}`. -/
def delete_upload (log : List UploadLogRow) (upload_id : String) :
    List UploadLogRow × DeleteResponse :=
  (log.map (markDeleted upload_id),
   { status := "deleted", upload_id := upload_id })

/-! ## Bulk reset (`DELETE /reset-all`, `reset_all_data` in `src/main.py`)

The handler runs three independent `DELETE ... WHERE TRUE` statements, in
the order operations → utility bills → upload log, each awaited with
`.result()`. A statement that raises aborts the handler (no try/except, no
transaction), leaving the earlier deletes in place. Each statement is
modelled as either emptying its table or raising, driven by `failsAt`. -/

/-- The three warehouse tables `reset_all_data` touches. -/
structure WarehouseState where
  operations : List OperationRow
  utility_bills : List UtilityBill
  upload_log : List UploadLogRow
  deriving Repr, DecidableEq

/-- Outcome of `reset_all_data`: the success payload, or an exception
raised by the `i`-th delete statement (0-based). -/
inductive ResetOutcome where
  | cleared
  | raisedAt (step : ℕ)
  deriving Repr, DecidableEq

/-- The `reset_all_data` handler: three sequential deletes with no rollback;
`failsAt i = true` means the `i`-th delete statement raises. -/
def reset_all_data (st : WarehouseState) (failsAt : ℕ → Bool) :
    WarehouseState × ResetOutcome :=
  if failsAt 0 then (st, .raisedAt 0)
  else
    let st1 := { st with operations := [] }
    if failsAt 1 then (st1, .raisedAt 1)
    else
      let st2 := { st1 with utility_bills := [] }
      if failsAt 2 then (st2, .raisedAt 2)
      else ({ st2 with upload_log := [] }, .cleared)

/-! ## Theorems -/

/-- The month check of `upload_bill` passes exactly on strings of exactly
seven characters whose character at index 4 is a dash (the emptiness test
is subsumed by the length test). -/
theorem monthAccepted_iff (m : String) :
    monthAccepted m = true ↔
      (m.toList.length = 7 ∧ m.toList.getD 4 ' ' = '-') := by
  unfold monthAccepted
  constructor
  · intro h
    simp only [Bool.and_eq_true, beq_iff_eq] at h
    exact ⟨h.1.2, h.2⟩
  · rintro ⟨h1, h2⟩
    simp only [Bool.and_eq_true, beq_iff_eq, Bool.not_eq_true']
    refine ⟨⟨?_, h1⟩, h2⟩
    have hne : m.toList ≠ [] := by
      intro hn
      rw [hn] at h1
      exact absurd h1 (by norm_num)
    cases hEmpty : m.toList.isEmpty
    · rfl
    · exact absurd (List.isEmpty_iff.mp hEmpty) hne

/-- **C1.** Every bill entry accepted by `upload_bill` returns
`estimated_co2 = units * FACTORS bill_type` with status `"success"` and the
generated bill id; the factor table maps electricity to `0.82`, fuel to
`2.68`, courier to `0.18`, and every other bill type to `0`; the concrete
entry (`electricity`, units 100, amount 500, region India, month
`"2024-03"`) yields `estimated_co2 = 82` with status `"success"` and the
fresh bill id. -/
theorem upload_bill_estimated_co2_spec :
    (∀ (bills : List UtilityBill) (bill_id : String) (a : BillArgs)
       (s b : String) (c : ℚ),
       (upload_bill bills bill_id a).2 = .ok s b c →
       s = "success" ∧ b = bill_id ∧ c = a.units * FACTORS a.bill_type) ∧
    FACTORS "electricity" = 41/50 ∧
    FACTORS "fuel" = 67/25 ∧
    FACTORS "courier" = 9/50 ∧
    (∀ t, t ≠ "electricity" → t ≠ "fuel" → t ≠ "courier" → FACTORS t = 0) ∧
    (upload_bill [] "B1"
        { bill_type := "electricity", amount := 500, units := 100,
          region := "India", month := "2024-03" }).2 =
      .ok "success" "B1" 82 := by
  refine ⟨?_, by simp [FACTORS], by simp [FACTORS], by simp [FACTORS], ?_, ?_⟩
  · intro bills bill_id a s b c h
    unfold upload_bill at h
    split at h
    · exact absurd h (by simp)
    · simp only [BillResponse.ok.injEq] at h
      exact ⟨h.1.symm, h.2.1.symm, h.2.2.symm⟩
  · intro t h1 h2 h3
    simp [FACTORS, h1, h2, h3]
  · have hm : monthAccepted "2024-03" = true := by decide
    norm_num [upload_bill, hm, FACTORS]

/-- Witness for C1: the worked example instantiates the accepted-entry
clause — the concrete electricity bill for 100 units is accepted and its
response fields satisfy the stated relation. -/
theorem upload_bill_estimated_co2_spec_witness :
    "success" = "success" ∧ "B1" = "B1" ∧
    (82 : ℚ) = (100 : ℚ) * FACTORS "electricity" :=
  upload_bill_estimated_co2_spec.1 [] "B1"
    { bill_type := "electricity", amount := 500, units := 100,
      region := "India", month := "2024-03" } "success" "B1" 82
    (by have hm : monthAccepted "2024-03" = true := by decide
        norm_num [upload_bill, hm, FACTORS])

/-- **C6.** `upload_bill` returns the month-format error payload exactly
when the month string is not a seven-character string with a dash at index
4; every string of that shape passes validation. -/
theorem upload_bill_month_validation (bills : List UtilityBill)
    (bill_id : String) (a : BillArgs) :
    (upload_bill bills bill_id a).2 = .err "Invalid month format. Use YYYY-MM"
      ↔ ¬(a.month.toList.length = 7 ∧ a.month.toList.getD 4 ' ' = '-') := by
  rw [← monthAccepted_iff]
  unfold upload_bill
  by_cases h : monthAccepted a.month
  · simp [h]
  · simp [h]

/-- Witness for C6: the month `"2024-3"` (six characters) is rejected with
the validation error. -/
theorem upload_bill_month_validation_witness :
    (upload_bill [] "B9"
        { bill_type := "fuel", amount := 10, units := 3, region := "India",
          month := "2024-3" }).2 =
      .err "Invalid month format. Use YYYY-MM" :=
  (upload_bill_month_validation [] "B9"
    { bill_type := "fuel", amount := 10, units := 3, region := "India",
      month := "2024-3" }).mpr (by decide)

/-- **C9.** When `upload_bill` rejects the month string, no utility-bill
row is inserted: the table state it returns is exactly its input state,
and the response is the validation error payload (the `INSERT` statement
only runs after the validation). -/
theorem upload_bill_invalid_month_atomic (bills : List UtilityBill)
    (bill_id : String) (a : BillArgs) (h : monthAccepted a.month = false) :
    (upload_bill bills bill_id a).1 = bills ∧
    (upload_bill bills bill_id a).2 =
      .err "Invalid month format. Use YYYY-MM" := by
  simp [upload_bill, h]

/-- Witness for C9: a malformed month leaves an empty bill table empty. -/
theorem upload_bill_invalid_month_atomic_witness :
    (upload_bill [] "B2"
        { bill_type := "fuel", amount := 10, units := 3, region := "India",
          month := "March-2024" }).1 = [] ∧
    (upload_bill [] "B2"
        { bill_type := "fuel", amount := 10, units := 3, region := "India",
          month := "March-2024" }).2 =
      .err "Invalid month format. Use YYYY-MM" :=
  upload_bill_invalid_month_atomic [] "B2"
    { bill_type := "fuel", amount := 10, units := 3, region := "India",
      month := "March-2024" } (by decide)

/-- **C10.** The `estimated_co2` returned by `upload_bill` does not depend
on `amount` or `region`: two accepted requests agreeing on `bill_type` and
`units` return equal `estimated_co2`, whatever their amounts and regions. -/
theorem upload_bill_co2_ignores_amount_region
    (bills1 bills2 : List UtilityBill) (id1 id2 : String) (a1 a2 : BillArgs)
    (s1 b1 : String) (c1 : ℚ) (s2 b2 : String) (c2 : ℚ)
    (h1 : (upload_bill bills1 id1 a1).2 = .ok s1 b1 c1)
    (h2 : (upload_bill bills2 id2 a2).2 = .ok s2 b2 c2)
    (htype : a1.bill_type = a2.bill_type) (hunits : a1.units = a2.units) :
    c1 = c2 := by
  unfold upload_bill at h1 h2
  split at h1
  · exact absurd h1 (by simp)
  · split at h2
    · exact absurd h2 (by simp)
    · simp only [BillResponse.ok.injEq] at h1 h2
      rw [← h1.2.2, ← h2.2.2, htype, hunits]

/-- Witness for C10: two accepted electricity bills for 100 units, one with
amount 500 in India and one with amount 999 in Germany, return the same
`estimated_co2` (82). -/
theorem upload_bill_co2_ignores_amount_region_witness : (82 : ℚ) = 82 :=
  upload_bill_co2_ignores_amount_region [] [] "B1" "B3"
    { bill_type := "electricity", amount := 500, units := 100,
      region := "India", month := "2024-03" }
    { bill_type := "electricity", amount := 999, units := 100,
      region := "Germany", month := "2023-01" }
    "success" "B1" 82 "success" "B3" 82
    (by have hm : monthAccepted "2024-03" = true := by decide
        norm_num [upload_bill, hm, FACTORS])
    (by have hm : monthAccepted "2023-01" = true := by decide
        norm_num [upload_bill, hm, FACTORS])
    rfl rfl

/-- Re-marking a row already processed by `markDeleted` changes nothing:
the update only touches `status`, so the row still matches and is set to
the same value. -/
theorem markDeleted_idem (upload_id : String) (r : UploadLogRow) :
    markDeleted upload_id (markDeleted upload_id r) = markDeleted upload_id r := by
  unfold markDeleted
  by_cases h : r.upload_id == upload_id
  · simp [h]
  · simp [h]

/-- **C7.** `delete_upload` is idempotent and never errors: it always
returns the success payload `{"status": "deleted", "upload_id": id}`
(also for already-deleted or nonexistent ids), running it a second time
leaves the upload-log state exactly as after the first run, and on an id
matching no row the state is unchanged. -/
theorem delete_upload_idempotent (log : List UploadLogRow) (upload_id : String) :
    (delete_upload log upload_id).2 =
      { status := "deleted", upload_id := upload_id } ∧
    (delete_upload (delete_upload log upload_id).1 upload_id).1 =
      (delete_upload log upload_id).1 ∧
    ((∀ r ∈ log, r.upload_id ≠ upload_id) →
      (delete_upload log upload_id).1 = log) := by
  refine ⟨rfl, ?_, ?_⟩
  · simp only [delete_upload, List.map_map]
    exact List.map_congr_left (fun r _ => markDeleted_idem upload_id r)
  · intro hnone
    simp only [delete_upload]
    have : ∀ r ∈ log, markDeleted upload_id r = r := by
      intro r hr
      simp [markDeleted, hnone r hr]
    rw [List.map_congr_left this]
    exact List.map_id' log

/-- Witness for C7: deleting the nonexistent id `"u2"` from a one-row log
leaves the log unchanged. -/
theorem delete_upload_idempotent_witness :
    (delete_upload
        [{ upload_id := "u1", upload_time := "t", file_name := "f",
           rows_loaded := 3, status := "SUCCESS" }] "u2").1 =
      [{ upload_id := "u1", upload_time := "t", file_name := "f",
         rows_loaded := 3, status := "SUCCESS" }] :=
  (delete_upload_idempotent
      [{ upload_id := "u1", upload_time := "t", file_name := "f",
         rows_loaded := 3, status := "SUCCESS" }] "u2").2.2
    (by intro r hr
        simp only [List.mem_singleton] at hr
        subst hr
        decide)

/-- **C8.** After a fully successful `reset_all_data` all three tables are
empty whatever the prior state; and because the three deletes run
independently in the order operations → utility bills → upload log, a
failure in a later delete leaves the earlier tables emptied (no rollback)
and the later ones untouched. -/
theorem reset_all_data_spec (st : WarehouseState) (failsAt : ℕ → Bool) :
    ((∀ i, failsAt i = false) →
       reset_all_data st failsAt =
         ({ operations := [], utility_bills := [], upload_log := [] },
          .cleared)) ∧
    (failsAt 0 = false → failsAt 1 = true →
       (reset_all_data st failsAt).1.operations = [] ∧
       (reset_all_data st failsAt).1.utility_bills = st.utility_bills ∧
       (reset_all_data st failsAt).1.upload_log = st.upload_log ∧
       (reset_all_data st failsAt).2 = .raisedAt 1) ∧
    (failsAt 0 = false → failsAt 1 = false → failsAt 2 = true →
       (reset_all_data st failsAt).1.operations = [] ∧
       (reset_all_data st failsAt).1.utility_bills = [] ∧
       (reset_all_data st failsAt).1.upload_log = st.upload_log ∧
       (reset_all_data st failsAt).2 = .raisedAt 2) ∧
    (failsAt 0 = true → (reset_all_data st failsAt).1 = st) := by
  refine ⟨?_, ?_, ?_, ?_⟩
  · intro hall
    simp [reset_all_data, hall 0, hall 1, hall 2]
  · intro h0 h1
    simp [reset_all_data, h0, h1]
  · intro h0 h1 h2
    simp [reset_all_data, h0, h1, h2]
  · intro h0
    simp [reset_all_data, h0]

/-- Counterexample to C2 as stated: with a factor table resolving
`("India", "electricity")` to the factor `0.0`, resolution succeeds (it
returns `some 0`, not none), yet `get_metrics` ignores the resolved factor
and applies the default `0.82` with reference `"Default"` — because the
fallback tests Python falsiness (`if not energy_factor:`), not resolution
failure. Under the claim, the single product's `energy_co2_kg` would be
`5 * 0 = 0`; the code reports `5 * 0.82 = 4.1`. -/
theorem get_metrics_zero_factor_counterexample :
    get_emission_factor
        [{ region := "India", activity_type := "electricity", year := 2024,
           factor := 0, reference := "ZeroSource" }] "India" "electricity" =
      (some 0, some "ZeroSource") ∧
    get_metrics
        [{ region := "India", activity_type := "electricity", year := 2024,
           factor := 0, reference := "ZeroSource" }] []
        [{ product_id := "P1", units_sold := 10, energy_kwh := 5,
           transport_km := 2, record_date := "2024-01-01" }] "India" none =
      [{ product_id := "P1", product_name := "P1", category := "Unknown",
         total_units_sold := 10, energy_co2_kg := 41/10,
         transport_co2_kg := 21/200, total_co2_kg := 841/200,
         energy_ref := some "Default", transport_ref := some "Default" }] ∧
    (41/10 : ℚ) ≠ 5 * 0 := by
  refine ⟨rfl, ?_, by norm_num⟩
  norm_num [get_metrics, get_emission_factor, maxYearRow, energyFactorUsed,
    transportFactorUsed, energyRefUsed, transportRefUsed, pyFalsyQ,
    sinceFilter, sumUnits, sumEnergy, sumKm, catName, catCategory,
    List.insertionSort, List.orderedInsert, List.dedup]

/-- **C2 (amended).** Every row reported by `get_metrics` multiplies the
product's summed energy by the electricity factor in use and its summed
transport by the freight factor in use, with `total_co2_kg` their sum; the
documented defaults (electricity `0.82`, freight `0.0525`, reference
`"Default"`) are applied exactly when the resolved factor is Python-falsy —
that is, when resolution fails (`none`) **or resolves to the factor `0.0`**
— and any nonzero resolved factor is used as-is with its resolved
reference; under the default factors, a single operations row with
`units_sold = 10`, `energy_kwh = 5`, `transport_km = 2` yields
`total_co2_kg = 4.205`. -/
theorem get_metrics_factor_spec (factors : List EmissionFactorRow)
    (cat : List CatalogueRow) (ops : List OperationRow)
    (region : String) (since : Option String) :
    (∀ r ∈ get_metrics factors cat ops region since,
       r.energy_co2_kg =
         sumEnergy (sinceFilter since ops) r.product_id *
           energyFactorUsed factors region ∧
       r.transport_co2_kg =
         sumKm (sinceFilter since ops) r.product_id *
           transportFactorUsed factors ∧
       r.total_co2_kg = r.energy_co2_kg + r.transport_co2_kg ∧
       r.energy_ref = energyRefUsed factors region ∧
       r.transport_ref = transportRefUsed factors) ∧
    ((get_emission_factor factors region "electricity").1 = none ∨
        (get_emission_factor factors region "electricity").1 = some 0 →
      energyFactorUsed factors region = 41/50 ∧
      energyRefUsed factors region = some "Default") ∧
    (∀ f : ℚ, f ≠ 0 →
      (get_emission_factor factors region "electricity").1 = some f →
      energyFactorUsed factors region = f ∧
      energyRefUsed factors region =
        (get_emission_factor factors region "electricity").2) ∧
    ((get_emission_factor factors "Global" "freight_truck").1 = none ∨
        (get_emission_factor factors "Global" "freight_truck").1 = some 0 →
      transportFactorUsed factors = 21/400 ∧
      transportRefUsed factors = some "Default") ∧
    (∀ f : ℚ, f ≠ 0 →
      (get_emission_factor factors "Global" "freight_truck").1 = some f →
      transportFactorUsed factors = f ∧
      transportRefUsed factors =
        (get_emission_factor factors "Global" "freight_truck").2) ∧
    get_metrics [] []
        [{ product_id := "P1", units_sold := 10, energy_kwh := 5,
           transport_km := 2, record_date := "2024-01-01" }] "India" none =
      [{ product_id := "P1", product_name := "P1", category := "Unknown",
         total_units_sold := 10, energy_co2_kg := 41/10,
         transport_co2_kg := 21/200, total_co2_kg := 841/200,
         energy_ref := some "Default", transport_ref := some "Default" }] := by
  refine ⟨?_, ?_, ?_, ?_, ?_, ?_⟩
  · intro r hr
    unfold get_metrics at hr
    rw [(List.perm_insertionSort nameLe _).mem_iff] at hr
    simp only [List.mem_map] at hr
    obtain ⟨pid, _, hpid⟩ := hr
    subst hpid
    exact ⟨rfl, rfl, rfl, rfl, rfl⟩
  · intro hfalsy
    have : pyFalsyQ (get_emission_factor factors region "electricity").1 = true := by
      rcases hfalsy with h | h <;> rw [h] <;> simp [pyFalsyQ]
    simp [energyFactorUsed, energyRefUsed, this]
  · intro f hf hres
    have hpf : pyFalsyQ (some f) = false := by simp [pyFalsyQ, hf]
    simp [energyFactorUsed, energyRefUsed, hres, hpf]
  · intro hfalsy
    have : pyFalsyQ (get_emission_factor factors "Global" "freight_truck").1 = true := by
      rcases hfalsy with h | h <;> rw [h] <;> simp [pyFalsyQ]
    simp [transportFactorUsed, transportRefUsed, this]
  · intro f hf hres
    have hpf : pyFalsyQ (some f) = false := by simp [pyFalsyQ, hf]
    simp [transportFactorUsed, transportRefUsed, hres, hpf]
  · norm_num [get_metrics, get_emission_factor, maxYearRow, energyFactorUsed,
      transportFactorUsed, energyRefUsed, transportRefUsed, pyFalsyQ,
      sinceFilter, sumUnits, sumEnergy, sumKm, catName, catCategory,
      List.insertionSort, List.orderedInsert, List.dedup]

/-- Witness for C2 (amended): with an empty factor table, resolution fails
and `get_metrics` uses the default electricity factor `0.82` tagged
`"Default"`. -/
theorem get_metrics_factor_spec_witness :
    energyFactorUsed [] "India" = 41/50 ∧
    energyRefUsed [] "India" = some "Default" :=
  (get_metrics_factor_spec [] [] [] "India" none).2.1 (Or.inl rfl)

/-- Inversion for a successful trends-loop step on the first row (no
previous month): the row is reported with a null `efficiency_change`. -/
theorem trendsLoop_cons_none (r : TrendQueryRow) (rs : List TrendQueryRow)
    (out : List TrendOut) (h : trendsLoop none (r :: rs) = .ok out) :
    ∃ rest, trendsLoop (some (cpuOf r)) rs = .ok rest ∧
      out = { month := r.month, co2_per_unit := pyRound 4 (cpuOf r),
              efficiency_change := none } :: rest := by
  simp only [trendsLoop] at h
  cases hrec : trendsLoop (some (cpuOf r)) rs with
  | error e => rw [hrec] at h; exact absurd h (by simp)
  | ok rest =>
    rw [hrec] at h
    simp only [Except.ok.injEq] at h
    exact ⟨rest, rfl, h.symm⟩

/-- Inversion for a successful trends-loop step with a previous ratio `p`:
necessarily `p ≠ 0` (else the step raises `ZeroDivisionError`), and the row
is reported with the rounded percentage change against `p`. -/
theorem trendsLoop_cons_some (p : ℚ) (r : TrendQueryRow)
    (rs : List TrendQueryRow) (out : List TrendOut)
    (h : trendsLoop (some p) (r :: rs) = .ok out) :
    p ≠ 0 ∧ ∃ rest, trendsLoop (some (cpuOf r)) rs = .ok rest ∧
      out = { month := r.month, co2_per_unit := pyRound 4 (cpuOf r),
              efficiency_change :=
                some (pyRound 2 ((cpuOf r - p) / p * 100)) } :: rest := by
  simp only [trendsLoop] at h
  by_cases hp : p = 0
  · rw [if_pos hp] at h; exact absurd h (by simp)
  · rw [if_neg hp] at h
    cases hrec : trendsLoop (some (cpuOf r)) rs with
    | error e => rw [hrec] at h; exact absurd h (by simp)
    | ok rest =>
      rw [hrec] at h
      simp only [Except.ok.injEq] at h
      exact ⟨hp, rest, rfl, h.symm⟩

/-- In every successful trends-loop run, each reported `co2_per_unit` is
the rounded per-row ratio of its input row. -/
theorem trendsLoop_cpu (prev : Option ℚ) (l : List TrendQueryRow)
    (o : List TrendOut) (h : trendsLoop prev l = .ok o) :
    List.Forall₂ (fun (r : TrendQueryRow) (x : TrendOut) =>
      x.co2_per_unit = pyRound 4 (cpuOf r)) l o := by
  induction l generalizing prev o with
  | nil =>
    simp only [trendsLoop, Except.ok.injEq] at h
    rw [← h]
    exact .nil
  | cons r rs ih =>
    cases prev with
    | none =>
      obtain ⟨rest, hrec, hout⟩ := trendsLoop_cons_none r rs o h
      subst hout
      exact .cons rfl (ih _ _ hrec)
    | some p =>
      obtain ⟨_, rest, hrec, hout⟩ := trendsLoop_cons_some p r rs o h
      subst hout
      exact .cons rfl (ih _ _ hrec)

/-- In every successful trends-loop run started with no previous month, the
first reported row has a null `efficiency_change`. -/
theorem trendsLoop_none_head (l : List TrendQueryRow) (o : List TrendOut)
    (h : trendsLoop none l = .ok o) :
    ∀ x ∈ o.head?, x.efficiency_change = none := by
  cases l with
  | nil =>
    simp only [trendsLoop, Except.ok.injEq] at h
    rw [← h]
    simp
  | cons r rs =>
    obtain ⟨rest, _, hout⟩ := trendsLoop_cons_none r rs o h
    subst hout
    simp

/-- In every successful trends-loop run, each adjacent pair of input rows
has a nonzero earlier ratio, and the later row is reported with the rounded
percentage change between the two ratios. -/
theorem trendsLoop_adjacent (prev : Option ℚ) (l : List TrendQueryRow)
    (o : List TrendOut) (h : trendsLoop prev l = .ok o) :
    ∀ i a b x, l.get? i = some a → l.get? (i + 1) = some b →
      o.get? (i + 1) = some x →
      cpuOf a ≠ 0 ∧
      x.efficiency_change =
        some (pyRound 2 ((cpuOf b - cpuOf a) / cpuOf a * 100)) := by
  induction l generalizing prev o with
  | nil => intro i a b x ha _ _; exact absurd ha (by simp)
  | cons r rs ih =>
    have step : ∃ rest, trendsLoop (some (cpuOf r)) rs = .ok rest ∧
        ∃ y, o = y :: rest := by
      cases prev with
      | none =>
        obtain ⟨rest, hrec, hout⟩ := trendsLoop_cons_none r rs o h
        exact ⟨rest, hrec, _, hout⟩
      | some p =>
        obtain ⟨_, rest, hrec, hout⟩ := trendsLoop_cons_some p r rs o h
        exact ⟨rest, hrec, _, hout⟩
    obtain ⟨rest, hrec, y, hout⟩ := step
    subst hout
    intro i a b x ha hb hx
    cases i with
    | zero =>
      simp only [List.get?_cons_zero, Option.some.injEq] at ha
      simp only [List.get?_cons_succ, List.get?_cons_zero] at hb hx
      cases rs with
      | nil => exact absurd hb (by simp)
      | cons b' rs' =>
        simp only [List.get?_cons_zero, Option.some.injEq] at hb
        obtain ⟨hp, rest', hrec', hout'⟩ :=
          trendsLoop_cons_some (cpuOf r) b' rs' rest hrec
        subst hout'
        simp only [List.get?_cons_zero, Option.some.injEq] at hx
        subst ha hb
        rw [← hx]
        exact ⟨hp, rfl⟩
    | succ i =>
      simp only [List.get?_cons_succ] at ha hb hx
      exact ih _ _ hrec i a b x ha hb hx

/-- **C3 (amended).** In every monthly trend series the handler reports in
full, the first month's `efficiency_change` is null, and the
`efficiency_change` of each later month equals the percentage change of
the per-unit ratio against the immediately preceding month, rounded to two
decimals — and every preceding month's ratio is necessarily nonzero, since
a preceding ratio of `0` makes the handler raise `ZeroDivisionError`
instead of reporting anything (see the counterexample). -/
theorem get_trends_efficiency_spec (rows : List TrendQueryRow)
    (out : List TrendOut) (h : get_trends rows = .ok out) :
    (∀ x ∈ out.head?, x.efficiency_change = none) ∧
    (∀ i a b x, rows.get? i = some a → rows.get? (i + 1) = some b →
      out.get? (i + 1) = some x →
      cpuOf a ≠ 0 ∧
      x.efficiency_change =
        some (pyRound 2 ((cpuOf b - cpuOf a) / cpuOf a * 100))) :=
  ⟨trendsLoop_none_head rows out h, trendsLoop_adjacent none rows out h⟩

/-- Counterexample to C3 as stated: when the first month's `co2_per_unit`
is `0` (here: total CO2 `0` over `5` units) and a second month follows, the
handler divides by the previous ratio `0` and raises `ZeroDivisionError`,
so no efficiency value is reported for the second month at all — the
claimed formula does not hold "for every value of cpu_(i-1) … including
0". -/
theorem get_trends_zero_prev_counterexample :
    get_trends
        [{ month := "2024-01", total_co2 := some 0, total_units := some 5 },
         { month := "2024-02", total_co2 := some 10, total_units := some 5 }] =
      .error "float division by zero" ∧
    ∀ out, get_trends
        [{ month := "2024-01", total_co2 := some 0, total_units := some 5 },
         { month := "2024-02", total_co2 := some 10, total_units := some 5 }] ≠
      .ok out := by
  have hcpu : cpuOf ⟨"2024-01", some 0, some 5⟩ = 0 := by
    norm_num [cpuOf]
  have herr : get_trends
      [{ month := "2024-01", total_co2 := some 0, total_units := some 5 },
       { month := "2024-02", total_co2 := some 10, total_units := some 5 }] =
      .error "float division by zero" := by
    simp only [get_trends, trendsLoop, hcpu, if_pos]
  refine ⟨herr, fun out hout => ?_⟩
  rw [herr] at hout
  exact absurd hout (by simp)

/-- Witness for C3 (amended): the two-month series with ratios `2` and
`3/2` reports `-25` (percent, two decimals) for the second month. -/
theorem get_trends_efficiency_spec_witness :
    cpuOf { month := "2024-01", total_co2 := some 4,
            total_units := some 2 } ≠ 0 ∧
    ({ month := "2024-02", co2_per_unit := 3/2,
       efficiency_change := some (-25) } : TrendOut).efficiency_change =
      some (pyRound 2
        ((cpuOf { month := "2024-02", total_co2 := some 3,
                  total_units := some 2 } -
          cpuOf { month := "2024-01", total_co2 := some 4,
                  total_units := some 2 }) /
         cpuOf { month := "2024-01", total_co2 := some 4,
                 total_units := some 2 } * 100)) :=
  (get_trends_efficiency_spec
      [{ month := "2024-01", total_co2 := some 4, total_units := some 2 },
       { month := "2024-02", total_co2 := some 3, total_units := some 2 }]
      [{ month := "2024-01", co2_per_unit := 2, efficiency_change := none },
       { month := "2024-02", co2_per_unit := 3/2,
         efficiency_change := some (-25) }]
      (by norm_num [get_trends, trendsLoop, cpuOf, pyRound, roundHalfEven,
            Int.fract])).2
    0 _ _ _ rfl rfl rfl

/-- **C4.** In every monthly trend series the handler reports, each month's
`co2_per_unit` equals its total CO2 divided by its total units when the
units are positive and `0` otherwise, rounded to four decimal places, with
null sums treated as `0` before the arithmetic. -/
theorem get_trends_cpu_spec (rows : List TrendQueryRow) (out : List TrendOut)
    (h : get_trends rows = .ok out) :
    List.Forall₂ (fun (r : TrendQueryRow) (x : TrendOut) =>
      x.co2_per_unit = pyRound 4
        (if 0 < r.total_units.getD 0 then
          r.total_co2.getD 0 / r.total_units.getD 0
        else 0)) rows out :=
  (trendsLoop_cpu none rows out h).imp (fun r x hr => by rw [hr]; rfl)

/-- Witness for C4: a single month with total CO2 `5` over `2` units is
reported with `co2_per_unit = 5/2`. -/
theorem get_trends_cpu_spec_witness :
    List.Forall₂ (fun (r : TrendQueryRow) (x : TrendOut) =>
      x.co2_per_unit = pyRound 4
        (if 0 < r.total_units.getD 0 then
          r.total_co2.getD 0 / r.total_units.getD 0
        else 0))
      [{ month := "2024-01", total_co2 := some 5, total_units := some 2 }]
      [{ month := "2024-01", co2_per_unit := 5/2,
         efficiency_change := none }] :=
  get_trends_cpu_spec
    [{ month := "2024-01", total_co2 := some 5, total_units := some 2 }]
    [{ month := "2024-01", co2_per_unit := 5/2, efficiency_change := none }]
    (by norm_num [get_trends, trendsLoop, cpuOf, pyRound, roundHalfEven,
          Int.fract])

/-- Witness for C8: a concrete nonempty warehouse is fully cleared when all
three deletes succeed. -/
theorem reset_all_data_spec_witness :
    reset_all_data
        { operations := [{ product_id := "P1", units_sold := 1,
                           energy_kwh := 2, transport_km := 3,
                           record_date := "2024-01-01" }],
          utility_bills := [],
          upload_log := [{ upload_id := "u1", upload_time := "t",
                           file_name := "f", rows_loaded := 3,
                           status := "SUCCESS" }] }
        (fun _ => false) =
      ({ operations := [], utility_bills := [], upload_log := [] },
       .cleared) :=
  (reset_all_data_spec
      { operations := [{ product_id := "P1", units_sold := 1,
                         energy_kwh := 2, transport_km := 3,
                         record_date := "2024-01-01" }],
        utility_bills := [],
        upload_log := [{ upload_id := "u1", upload_time := "t",
                         file_name := "f", rows_loaded := 3,
                         status := "SUCCESS" }] }
      (fun _ => false)).1 (fun _ => rfl)

/-- `List.lookup` over an association list that pairs each key of `ks` with
a computed value: it finds `f m` exactly when `m ∈ ks`. -/
theorem lookup_map_pair (f : String → ℚ) (ks : List String) (m : String) :
    (ks.map (fun k => (k, f k))).lookup m =
      if m ∈ ks then some (f m) else none := by
  induction ks with
  | nil => simp
  | cons k ks ih =>
    simp only [List.map_cons, List.lookup_cons]
    by_cases hk : m = k
    · subst hk
      simp
    · simp [hk, ih, beq_false_of_ne hk]

/-- A month with no operations row contributes a zero product-CTE sum. -/
theorem opsMonthCo2_eq_zero (ops : List OperationRow) (m : String)
    (hm : m ∉ opsMonths ops) : opsMonthCo2 ops m = 0 := by
  unfold opsMonths at hm
  rw [List.mem_dedup] at hm
  unfold opsMonthCo2
  have hf : ops.filter (fun o => formatMonth o.record_date == m) = [] := by
    rw [List.filter_eq_nil_iff]
    intro o ho
    simp only [beq_iff_eq]
    intro hc
    exact hm (List.mem_map.mpr ⟨o, ho, hc⟩)
  rw [hf]
  simp

/-- A month with no bill-emissions row contributes a zero utility-CTE sum. -/
theorem billMonthCo2_eq_zero (bills : List BillEmissionRow) (m : String)
    (hm : m ∉ billMonths bills) : billMonthCo2 bills m = 0 := by
  unfold billMonths at hm
  rw [List.mem_dedup] at hm
  unfold billMonthCo2
  have hf : bills.filter (fun b => formatMonth b.month == m) = [] := by
    rw [List.filter_eq_nil_iff]
    intro b hb
    simp only [beq_iff_eq]
    intro hc
    exact hm (List.mem_map.mpr ⟨b, hb, hc⟩)
  rw [hf]
  simp

/-- Looking a month up in the product CTE and `IFNULL`ing to `0` gives
exactly that month's product-CTE sum (`0` when the month is absent). -/
theorem productCTE_lookup (ops : List OperationRow) (m : String) :
    ((productCTE ops).lookup m).getD 0 = opsMonthCo2 ops m := by
  rw [productCTE, lookup_map_pair]
  by_cases hm : m ∈ opsMonths ops
  · simp [hm]
  · simp [hm, opsMonthCo2_eq_zero ops m hm]

/-- Looking a month up in the utility CTE and `IFNULL`ing to `0` gives
exactly that month's utility-CTE sum (`0` when the month is absent). -/
theorem utilityCTE_lookup (bills : List BillEmissionRow) (m : String) :
    ((utilityCTE bills).lookup m).getD 0 = billMonthCo2 bills m := by
  rw [utilityCTE, lookup_map_pair]
  by_cases hm : m ∈ billMonths bills
  · simp [hm]
  · simp [hm, billMonthCo2_eq_zero bills m hm]

/-- The key column of the product CTE is the distinct-month list. -/
theorem productCTE_keys (ops : List OperationRow) :
    (productCTE ops).map Prod.fst = opsMonths ops := by
  rw [productCTE, List.map_map]
  exact List.map_id' _

/-- The key column of the utility CTE is the distinct-month list. -/
theorem utilityCTE_keys (bills : List BillEmissionRow) :
    (utilityCTE bills).map Prod.fst = billMonths bills := by
  rw [utilityCTE, List.map_map]
  exact List.map_id' _

/-- **C5.** The total-footprint series contains exactly the months
appearing in either source (product-derived or utility-derived); each
reported row carries that month's product sum and utility sum — a side
with no rows for the month reported as `0` — with `total_co2` their sum;
and the series is ordered by month key (chronological for `YYYY-MM`
keys). -/
theorem total_footprint_spec (ops : List OperationRow)
    (bills : List BillEmissionRow) :
    (∀ m, m ∈ (total_footprint ops bills).map FootprintRow.month ↔
       (m ∈ opsMonths ops ∨ m ∈ billMonths bills)) ∧
    (∀ r ∈ total_footprint ops bills,
       r.product_co2 = opsMonthCo2 ops r.month ∧
       r.utility_co2 = billMonthCo2 bills r.month ∧
       r.total_co2 = r.product_co2 + r.utility_co2 ∧
       (r.month ∉ opsMonths ops → r.product_co2 = 0) ∧
       (r.month ∉ billMonths bills → r.utility_co2 = 0)) ∧
    List.Sorted monthLe ((total_footprint ops bills).map FootprintRow.month) := by
  have hmap : (total_footprint ops bills).map FootprintRow.month =
      List.insertionSort monthLe
        (((productCTE ops).map Prod.fst ++
          (utilityCTE bills).map Prod.fst).dedup) := by
    simp only [total_footprint]
    rw [List.map_map]
    exact List.map_id' _
  refine ⟨?_, ?_, ?_⟩
  · intro m
    rw [hmap, (List.perm_insertionSort monthLe _).mem_iff, List.mem_dedup,
      List.mem_append, productCTE_keys, utilityCTE_keys]
  · intro r hr
    unfold total_footprint at hr
    simp only [List.mem_map] at hr
    obtain ⟨m, _, hrec⟩ := hr
    subst hrec
    refine ⟨productCTE_lookup ops m, utilityCTE_lookup bills m, rfl, ?_, ?_⟩
    · intro hnm
      show ((productCTE ops).lookup m).getD 0 = 0
      rw [productCTE_lookup]
      exact opsMonthCo2_eq_zero ops m hnm
    · intro hnm
      show ((utilityCTE bills).lookup m).getD 0 = 0
      rw [utilityCTE_lookup]
      exact billMonthCo2_eq_zero bills m hnm
  · rw [hmap]
    exact List.sorted_insertionSort monthLe _

/-- Witness for C5: with one January operations row and one February bill
row, February appears in the combined series even though the product source
has no rows for it. -/
theorem total_footprint_spec_witness :
    "2024-02" ∈ (total_footprint
        [{ product_id := "P1", units_sold := 1, energy_kwh := 1,
           transport_km := 0, record_date := "2024-01-15" }]
        [{ month := "2024-02-01", region := "India",
           bill_type := "electricity", estimated_co2 := 82 }]).map
      FootprintRow.month :=
  ((total_footprint_spec
      [{ product_id := "P1", units_sold := 1, energy_kwh := 1,
         transport_km := 0, record_date := "2024-01-15" }]
      [{ month := "2024-02-01", region := "India",
         bill_type := "electricity", estimated_co2 := 82 }]).1
    "2024-02").mpr (Or.inr (by decide))
